import Mathlib

/-
Verification of the K-means clustering engine of this repository.

The animated entry point `view_clustering` lives in `kmeans/animate.py`:
it validates its inputs, restricts the animated path to 2-D and 3-D data,
chooses a legend anchor from the dataset size, and then drives the
assign / update / converge loop, drawing once per iteration and raising
`MaxIterationError("Iteration count exceeded.")` when the bound is
exhausted.  The helpers `_validate`, `_assign_clusters`, `_new_centroids`
and the headless entry point `cluster` live in `kmeans/base_funcs.py`,
which is not part of the provided sources; those are modelled from the
specification and are marked as such on their doc comments.

Numeric coordinates are embedded as rationals.  The source compares
Euclidean norms (square roots) against the tolerance; the embedding
compares squared norms against the squared tolerance, which is an exact
encoding of the same test (proved as `normExceeds_eq_false_iff` below).
-/

deriving instance DecidableEq for Except

namespace KMeans

/-- A data point or centroid: a row vector of rational coordinates. -/
abbrev Point : Type := List ℚ

/-- A cluster partition: the source's `dict[int, np.ndarray]` with keys
`0 .. k-1` is embedded as a list indexed by cluster index. -/
abbrev Clusters : Type := List (List Point)

/-- Error taxonomy of one clustering run.  The five validation errors and
the headless path come from the specification; `unsupportedDimension` is
the `ValueError` raised by `view_clustering` for data that is neither 2-D
nor 3-D; `maxIteration` is `MaxIterationError`; `render` stands for an
exception escaping the per-iteration drawing call. -/
inductive KErr : Type where
  | invalidData : String → KErr
  | invalidClusterCount : String → KErr
  | dimensionMismatch : String → KErr
  | invalidCentroid : String → KErr
  | invalidParameter : String → KErr
  | unsupportedDimension : String → KErr
  | maxIteration : String → KErr
  | render : String → KErr
deriving DecidableEq

/-- Squared Euclidean distance between two points, coordinate-wise. -/
def distSq : Point → Point → ℚ
  | a :: as, b :: bs => (a - b) ^ 2 + distSq as bs
  | [], _ => 0
  | _ :: _, [] => 0

/-- Exact embedding of the source's test `norm > tolerance` applied to a
squared norm `sq`: for `0 ≤ sq` this Boolean is `true` precisely when
`Real.sqrt sq > tolerance`. -/
def normExceeds (sq tol : ℚ) : Bool := decide (tol < 0) || decide (tol * tol < sq)

/-- Embedding of `any(np.where(changes > tolerance, True, False))` where
`changes = np.linalg.norm(centroids - old_centroids, axis=1)`
(animate.py, lines 171-172): true when some index-aligned pair of new and
old centroids is further apart than the tolerance. -/
def anyExceeds : List Point → List Point → ℚ → Bool
  | n :: ns, o :: os, tol => normExceeds (distSq n o) tol || anyExceeds ns os tol
  | [], _, _ => false
  | _ :: _, [], _ => false

/-- Modelled from the spec: helper for the Assigner of `base_funcs.py`
(not in the provided sources).  Scans the remaining centroids, keeping the
index of the smallest distance seen so far; the strict comparison keeps
the lowest index on ties, as the specification requires.  Squared
distances are compared, which orders points exactly as Euclidean
distances do. -/
def nearestAux (p : Point) : List Point → ℕ → ℕ → ℚ → ℕ
  | [], _, best, _ => best
  | c :: cs, i, best, bestD =>
    if distSq p c < bestD then nearestAux p cs (i + 1) i (distSq p c)
    else nearestAux p cs (i + 1) best bestD

/-- Modelled from the spec: the index of the centroid nearest to `p`
(Assigner contract of `base_funcs.py`, not in the provided sources);
ties go to the lowest index. -/
def nearestIdx (cents : List Point) (p : Point) : ℕ :=
  match cents with
  | [] => 0
  | c :: cs => nearestAux p cs 1 0 (distSq p c)

/-- Modelled from the spec: `_assign_clusters(data, centroids)` of
`base_funcs.py` (not in the provided sources).  Every point goes to the
cluster of its nearest centroid; cluster `j` holds, in data order, the
points whose nearest centroid has index `j`. -/
def assignClusters (data : List Point) (cents : List Point) : Clusters :=
  (List.range cents.length).map (fun j => data.filter (fun p => decide (nearestIdx cents p = j)))

/-- Modelled from the spec: the centroid of one cluster, the arithmetic
mean of its points per dimension (CentroidUpdater contract of
`base_funcs.py`, not in the provided sources).  For an empty cluster the
source's behaviour is left open by the specification; here the rational
division by zero yields the zero vector. -/
def clusterMean (cl : List Point) (nd : ℕ) : Point :=
  (List.range nd).map (fun j => (cl.map (fun p => p.getD j 0)).sum / (cl.length : ℚ))

/-- Modelled from the spec: `_new_centroids(clusters, ndim)` of
`base_funcs.py` (not in the provided sources): one mean per cluster. -/
def newCentroids (cls : Clusters) (nd : ℕ) : List Point :=
  cls.map (fun cl => clusterMean cl nd)

/-- One pure assign-then-update step on a centroid set. -/
def stepC (data : List Point) (nd : ℕ) (c : List Point) : List Point :=
  newCentroids (assignClusters data c) nd

/-- The pure centroid sequence: `centSeq data nd c0 t` is the centroid set
after `t` assign-then-update steps from `c0`. -/
def centSeq (data : List Point) (nd : ℕ) (c0 : List Point) : ℕ → List Point
  | 0 => c0
  | t + 1 => stepC data nd (centSeq data nd c0 t)

/-- A renderer that checks, at every iteration, that the partition and
the centroids handed to it are the pure per-iteration values determined
by the data and the initial centroids alone, and fails otherwise: a run
that succeeds under this renderer passed exactly those values to every
rendering call. -/
def chkDraw (data : List Point) (nd : ℕ) (c0 : List Point) :
    ℕ → Clusters → List Point → Option String :=
  fun t cls cents =>
    if cls = assignClusters data (centSeq data nd c0 t) ∧ cents = centSeq data nd c0 (t + 1) then
      none
    else
      some "unexpected iteration state"

/-- Modelled from the spec: sampling of `k` initial centroids from the
data, uniformly at random without replacement, driven by an injectable
random source `rng` (Validator contract of `base_funcs.py`, not in the
provided sources). -/
def sampleK (rng : ℕ → ℕ) : ℕ → ℕ → List Point → List Point
  | 0, _, _ => []
  | _ + 1, _, [] => []
  | n + 1, step, q :: qs =>
    (q :: qs).getD (rng step % (q :: qs).length) [] ::
      sampleK rng n (step + 1) ((q :: qs).eraseIdx (rng step % (q :: qs).length))

/-- Modelled from the spec: `_validate` of `base_funcs.py` (not in the
provided sources).  Checks, in the specification's order: data non-empty
and of a single row width, `k` a positive integer at most the number of
points, a supplied `ndim` equal to the row width (otherwise inferred),
supplied initial means exactly `k` vectors of that width (otherwise
sampled through `rng`), tolerance nonnegative and the iteration bound
at least 1.  On success it returns the normalized
(data, initial means, ndim) triple. -/
def validate (data : List Point) (k : ℕ) (initialMeans : Option (List Point))
    (ndim0 : Option ℕ) (tol : ℚ) (maxIterations : ℕ) (rng : ℕ → ℕ) :
    Except KErr (List Point × List Point × ℕ) :=
  match data with
  | [] => .error (.invalidData "data must be non-empty")
  | p :: ps =>
    if ps.any (fun q => decide (q.length ≠ p.length)) then
      .error (.invalidData "data rows must share a single dimensionality")
    else if k = 0 ∨ (p :: ps).length < k then
      .error (.invalidClusterCount "k must be a positive integer no larger than the number of points")
    else if ndim0.getD p.length ≠ p.length then
      .error (.dimensionMismatch "ndim does not match the data row width")
    else
      match initialMeans with
      | some ms =>
        if ms.length = k ∧ ms.all (fun m => decide (m.length = p.length)) then
          if tol < 0 ∨ maxIterations = 0 then
            .error (.invalidParameter "tolerance must be nonnegative and max_iterations at least 1")
          else
            .ok (p :: ps, ms, ndim0.getD p.length)
        else
          .error (.invalidCentroid "initial means must be exactly k vectors of matching dimensionality")
      | none =>
        if tol < 0 ∨ maxIterations = 0 then
          .error (.invalidParameter "tolerance must be nonnegative and max_iterations at least 1")
        else
          .ok (p :: ps, sampleK rng k 0 (p :: ps), ndim0.getD p.length)

/-- True exactly on the five error kinds the Validator can produce. -/
def isValidationError : KErr → Bool
  | .invalidData _ => true
  | .invalidClusterCount _ => true
  | .dimensionMismatch _ => true
  | .invalidCentroid _ => true
  | .invalidParameter _ => true
  | _ => false

/-- The iteration loop of `view_clustering` (animate.py, lines 167-179),
fuelled by the remaining iteration budget and carrying the number `t` of
iterations already performed.  Each iteration assigns clusters, updates
centroids, notifies the renderer (whose exception, if any, propagates,
since the source calls `_draw` with no handler), and either returns the
current partition and centroids when no centroid moved beyond the
tolerance, or continues with the new centroids.  Exhausting the budget
raises `MaxIterationError("Iteration count exceeded.")`.  The success
value also records the number of iterations performed, which
`view_clustering` itself discards. -/
def clusterLoop (data : List Point) (nd : ℕ) (tol : ℚ)
    (draw : ℕ → Clusters → List Point → Option String) :
    ℕ → ℕ → List Point → Except KErr (Clusters × List Point × ℕ)
  | 0, _, _ => .error (.maxIteration "Iteration count exceeded.")
  | fuel + 1, t, olds =>
    match draw t (assignClusters data olds) (stepC data nd olds) with
    | some e => .error (.render e)
    | none =>
      if anyExceeds (stepC data nd olds) olds tol then
        clusterLoop data nd tol draw fuel (t + 1) (stepC data nd olds)
      else
        .ok (assignClusters data olds, stepC data nd olds, t + 1)

/-- A renderer that never fails and draws nothing observable. -/
def noDraw : ℕ → Clusters → List Point → Option String := fun _ _ _ => none

/-- Legend anchor choice of `view_clustering` (animate.py, lines 148-152):
datasets of more than 100000 points use the fixed corner anchor
"upper right", the rest the automatic "best" placement. -/
def legendFor (n : ℕ) : String := if 100000 < n then "upper right" else "best"

/-- The data the animated entry point's figure handle carries in this
embedding: which projection was created (2-D axes or 3-D projection,
recorded by the row width) and the legend anchor used. -/
structure Fig where
  ndim : ℕ
  legendLoc : String
deriving DecidableEq

/-- The animated entry point `view_clustering` (animate.py, lines 96-179):
validate, choose the legend anchor from the dataset size, fail with the
`ValueError` text of the source unless the data is 2-D or 3-D, then run
the iteration loop and return the final partition, the final centroids and
the figure handle — the iteration count the loop produced is dropped, as
in the source's `return clusters, centroids, fig`. -/
def viewClustering (data0 : List Point) (k : ℕ) (initialMeans : Option (List Point))
    (ndim0 : Option ℕ) (tol : ℚ) (maxIterations : ℕ) (rng : ℕ → ℕ)
    (draw : ℕ → Clusters → List Point → Option String) :
    Except KErr (Clusters × List Point × Fig) :=
  match validate data0 k initialMeans ndim0 tol maxIterations rng with
  | .error e => .error e
  | .ok (data, means, nd) =>
    if nd = 2 ∨ nd = 3 then
      match clusterLoop data nd tol draw maxIterations 0 means with
      | .error e => .error e
      | .ok (cls, cents, _) => .ok (cls, cents, ⟨nd, legendFor data.length⟩)
    else
      .error (.unsupportedDimension "Only 2-D or 3-D may be animated. Use the `cluster` function for other dimensioned data.")

/-- Modelled from the spec: the headless entry point `cluster` of
`base_funcs.py` (not in the provided sources).  Per the specification it
validates, runs the same loop with no renderer attached and no
dimensionality restriction, and returns the final partition, the final
centroids and the iteration count. -/
def cluster (data0 : List Point) (k : ℕ) (initialMeans : Option (List Point))
    (ndim0 : Option ℕ) (tol : ℚ) (maxIterations : ℕ) (rng : ℕ → ℕ) :
    Except KErr (Clusters × List Point × ℕ) :=
  match validate data0 k initialMeans ndim0 tol maxIterations rng with
  | .error e => .error e
  | .ok (data, means, nd) => clusterLoop data nd tol noDraw maxIterations 0 means

/-- Squared distances are nonnegative. -/
lemma distSq_nonneg : ∀ p q : Point, 0 ≤ distSq p q
  | a :: as, b :: bs => by
    have h1 : (0 : ℚ) ≤ (a - b) ^ 2 := sq_nonneg _
    have h2 : (0 : ℚ) ≤ distSq as bs := distSq_nonneg as bs
    rw [distSq]
    exact add_nonneg h1 h2
  | [], _ => by rw [distSq]
  | _ :: _, [] => by rw [distSq]

/-- The Boolean `normExceeds sq tol` is false exactly when the Euclidean
norm `Real.sqrt sq` is at most the tolerance: the squared comparison of
the embedding encodes the source's norm comparison exactly. -/
lemma normExceeds_eq_false_iff (sq tol : ℚ) (h : 0 ≤ sq) :
    normExceeds sq tol = false ↔ Real.sqrt (sq : ℝ) ≤ (tol : ℝ) := by
  unfold normExceeds
  rw [Bool.or_eq_false_iff, decide_eq_false_iff_not, decide_eq_false_iff_not, not_lt, not_lt]
  constructor
  · rintro ⟨h1, h2⟩
    have h2' : (sq : ℝ) ≤ (tol : ℝ) * (tol : ℝ) := by exact_mod_cast h2
    calc Real.sqrt (sq : ℝ) ≤ Real.sqrt ((tol : ℝ) * (tol : ℝ)) := Real.sqrt_le_sqrt h2'
      _ = (tol : ℝ) := Real.sqrt_mul_self (by exact_mod_cast h1)
  · intro hle
    have htol : (0 : ℝ) ≤ (tol : ℝ) := le_trans (Real.sqrt_nonneg _) hle
    refine ⟨by exact_mod_cast htol, ?_⟩
    have hsq : (sq : ℝ) ≤ (tol : ℝ) * (tol : ℝ) := by
      have hmul := mul_le_mul hle hle (Real.sqrt_nonneg _) htol
      rwa [Real.mul_self_sqrt (by exact_mod_cast h)] at hmul
    exact_mod_cast hsq

/-- One assign-then-update step yields as many centroids as it was given. -/
lemma stepC_length (data : List Point) (nd : ℕ) (c : List Point) :
    (stepC data nd c).length = c.length := by
  simp [stepC, newCentroids, assignClusters]

/-- Componentwise reading of the convergence test: no centroid pair
exceeds the tolerance exactly when every index-aligned pair is within. -/
lemma anyExceeds_eq_false_iff : ∀ (news olds : List Point) (tol : ℚ),
    news.length = olds.length →
    (anyExceeds news olds tol = false ↔
      ∀ i, i < olds.length →
        normExceeds (distSq (news.getD i []) (olds.getD i [])) tol = false)
  | [], [], tol, _ => by
    constructor
    · intro _ i hi; cases hi
    · intro _; rw [anyExceeds]
  | n :: ns, o :: os, tol, h => by
    rw [anyExceeds, Bool.or_eq_false_iff]
    have ih := anyExceeds_eq_false_iff ns os tol (by simpa using h)
    constructor
    · rintro ⟨h1, h2⟩ i hi
      cases i with
      | zero => simpa using h1
      | succ j => simpa using (ih.mp h2) j (by simpa using hi)
    · intro hall
      refine ⟨by simpa using hall 0 (by simp), ih.mpr fun j hj => ?_⟩
      simpa using hall (j + 1) (by simpa using hj)
  | [], _ :: _, _, h => by simp at h
  | _ :: _, [], _, h => by simp at h

/-- Any successful loop result reports strictly more iterations than had
already been performed when the loop was entered. -/
lemma clusterLoop_ok_le (data : List Point) (nd : ℕ) (tol : ℚ)
    (draw : ℕ → Clusters → List Point → Option String) :
    ∀ fuel t olds cls cents c,
      clusterLoop data nd tol draw fuel t olds = .ok (cls, cents, c) → t + 1 ≤ c := by
  intro fuel
  induction fuel with
  | zero =>
    intro t olds cls cents c h
    rw [clusterLoop] at h
    cases h
  | succ n ih =>
    intro t olds cls cents c h
    rw [clusterLoop] at h
    cases hd : draw t (assignClusters data olds) (stepC data nd olds) with
    | some e => rw [hd] at h; cases h
    | none =>
      rw [hd] at h
      by_cases hex : anyExceeds (stepC data nd olds) olds tol = true
      · rw [if_pos hex] at h
        have := ih (t + 1) _ cls cents c h
        omega
      · rw [if_neg hex] at h
        have hc : c = t + 1 := by
          have := h
          injection this with h1
          injection h1 with _ h2
          injection h2 with _ h3
          exact h3.symm
        omega

/-- C1: the iteration loop stops with success exactly when convergence
holds — for each of the index-aligned pairs of old and new centroids the
Euclidean norm of (new - old) is at most the tolerance, conjoined over
all centroids; if any single displacement exceeds the tolerance the loop
continues instead. -/
theorem C1_loop_stops_iff_all_displacements_le_tolerance
    (data : List Point) (nd : ℕ) (tol : ℚ)
    (draw : ℕ → Clusters → List Point → Option String)
    (fuel t : ℕ) (olds : List Point)
    (hdraw : draw t (assignClusters data olds)
        (stepC data nd olds) = none) :
    clusterLoop data nd tol draw (fuel + 1) t olds
        = .ok (assignClusters data olds, stepC data nd olds, t + 1)
      ↔ ∀ i, i < olds.length →
          Real.sqrt ((distSq ((stepC data nd olds).getD i [])
              (olds.getD i []) : ℚ) : ℝ) ≤ (tol : ℝ) := by
  have hlen : (stepC data nd olds).length = olds.length := by
    simpa [stepC] using stepC_length data nd olds
  rw [clusterLoop, hdraw]
  by_cases hex : anyExceeds (stepC data nd olds) olds tol = true
  · rw [if_pos hex]
    constructor
    · intro h
      exfalso
      have := clusterLoop_ok_le data nd tol draw fuel (t + 1) _ _ _ _ h
      omega
    · intro hall
      exfalso
      have hf : anyExceeds (stepC data nd olds) olds tol = false := by
        rw [anyExceeds_eq_false_iff _ _ _ hlen]
        intro i hi
        rw [normExceeds_eq_false_iff _ _ (distSq_nonneg _ _)]
        exact hall i hi
      rw [hf] at hex
      cases hex
  · rw [if_neg hex]
    have hf : anyExceeds (stepC data nd olds) olds tol = false :=
      Bool.eq_false_iff.mpr hex
    constructor
    · intro _ i hi
      rw [← normExceeds_eq_false_iff _ _ (distSq_nonneg _ _)]
      exact (anyExceeds_eq_false_iff _ _ _ hlen).mp hf i hi
    · intro _
      rfl

/-- Witness for C1 at a concrete input: one cluster of two points with
the current centroid already at their mean. -/
theorem C1_witness :
    noDraw 0 (assignClusters [[0, 0], [0, 1]] [[0, 1/2]])
        (newCentroids (assignClusters [[0, 0], [0, 1]] [[0, 1/2]]) 2) = none ∧
      (clusterLoop [[0, 0], [0, 1]] 2 0 noDraw 1 0 [[0, 1/2]]
          = .ok (assignClusters [[0, 0], [0, 1]] [[0, 1/2]],
              newCentroids (assignClusters [[0, 0], [0, 1]] [[0, 1/2]]) 2, 1)
        ↔ ∀ i, i < ([[0, 1/2]] : List Point).length →
            Real.sqrt ((distSq ((newCentroids (assignClusters [[0, 0], [0, 1]] [[0, 1/2]]) 2).getD i [])
                (([[0, 1/2]] : List Point).getD i []) : ℚ) : ℝ) ≤ ((0 : ℚ) : ℝ)) :=
  ⟨rfl, C1_loop_stops_iff_all_displacements_le_tolerance [[0, 0], [0, 1]] 2 0 noDraw 0 0 [[0, 1/2]] rfl⟩

/-- The scan of `nearestAux` never leaves the index range it scans. -/
lemma nearestAux_lt (p : Point) : ∀ (cs : List Point) (i best : ℕ) (bestD : ℚ),
    best < i → nearestAux p cs i best bestD < i + cs.length
  | [], i, best, bestD, h => by
    rw [nearestAux]
    simpa using h
  | c :: cs, i, best, bestD, h => by
    rw [nearestAux]
    by_cases hlt : distSq p c < bestD
    · rw [if_pos hlt]
      have := nearestAux_lt p cs (i + 1) i (distSq p c) (by omega)
      simp only [List.length_cons]
      omega
    · rw [if_neg hlt]
      have := nearestAux_lt p cs (i + 1) best bestD (by omega)
      simp only [List.length_cons]
      omega

/-- The nearest-centroid index is a legal cluster index. -/
lemma nearestIdx_lt (cents : List Point) (p : Point) (h : cents ≠ []) :
    nearestIdx cents p < cents.length := by
  match cents with
  | [] => exact absurd rfl h
  | c :: cs =>
    rw [nearestIdx]
    have := nearestAux_lt p cs 1 0 (distSq p c) (by omega)
    simp only [List.length_cons]
    omega

/-- The assignment produces one cluster per centroid. -/
lemma assignClusters_length (data cents : List Point) :
    (assignClusters data cents).length = cents.length := by
  simp [assignClusters]

/-- Membership in cluster `j` of the assignment: exactly the data points
whose nearest centroid is the one of index `j`. -/
lemma mem_assignClusters (data cents : List Point) (j : ℕ) (hj : j < cents.length) (p : Point) :
    p ∈ (assignClusters data cents).getD j [] ↔ p ∈ data ∧ nearestIdx cents p = j := by
  simp [assignClusters, List.getD_eq_getElem?_getD, List.getElem?_map, List.getElem?_range, hj,
    List.mem_filter]

/-- C4: the partition produced by assignment is complete and disjoint —
the union of the clusters holds exactly the points of the dataset, two
distinct clusters share no point, and every data point lies in exactly
one cluster. -/
theorem C4_partition_complete_and_disjoint (data cents : List Point) (h : cents ≠ []) :
    (∀ p : Point, p ∈ (assignClusters data cents).flatten ↔ p ∈ data) ∧
      (∀ i j, i ≠ j → ∀ p : Point,
        p ∈ (assignClusters data cents).getD i [] →
          p ∉ (assignClusters data cents).getD j []) ∧
      (∀ p ∈ data, ∃! j, j < cents.length ∧ p ∈ (assignClusters data cents).getD j []) := by
  have hlen : (assignClusters data cents).length = cents.length := assignClusters_length data cents
  refine ⟨?_, ?_, ?_⟩
  · intro p
    constructor
    · intro hp
      rcases List.mem_flatten.mp hp with ⟨cl, hcl, hpcl⟩
      have hcl' : ∃ a, a < cents.length ∧
          List.filter (fun q => decide (nearestIdx cents q = a)) data = cl := by
        simpa [assignClusters] using hcl
      rcases hcl' with ⟨j, hjr, rfl⟩
      exact (List.mem_filter.mp hpcl).1
    · intro hp
      refine List.mem_flatten.mpr
        ⟨data.filter (fun q => decide (nearestIdx cents q = nearestIdx cents p)), ?_, ?_⟩
      · have : nearestIdx cents p ∈ List.range cents.length :=
          List.mem_range.mpr (nearestIdx_lt cents p h)
        simpa [assignClusters] using List.mem_map.mpr ⟨nearestIdx cents p, this, rfl⟩
      · exact List.mem_filter.mpr ⟨hp, by simp⟩
  · intro i j hij p hpi hpj
    by_cases hi : i < cents.length
    · by_cases hjlt : j < cents.length
      · have h1 := (mem_assignClusters data cents i hi p).mp hpi
        have h2 := (mem_assignClusters data cents j hjlt p).mp hpj
        exact hij (h1.2.symm.trans h2.2)
      · rw [List.getD_eq_default _ _ (by omega : (assignClusters data cents).length ≤ j)] at hpj
        cases hpj
    · rw [List.getD_eq_default _ _ (by omega : (assignClusters data cents).length ≤ i)] at hpi
      cases hpi
  · intro p hp
    have hnear := nearestIdx_lt cents p h
    refine ⟨nearestIdx cents p,
      ⟨hnear, (mem_assignClusters data cents _ hnear p).mpr ⟨hp, rfl⟩⟩, ?_⟩
    rintro j ⟨hjlt, hpj⟩
    exact (((mem_assignClusters data cents j hjlt p).mp hpj).2).symm

/-- Witness for C4 at a concrete input: two points and two centroids. -/
theorem C4_witness :
    ([[0, 0], [5, 5]] : List Point) ≠ [] ∧
      ((∀ p : Point,
          p ∈ (assignClusters [[0, 0], [5, 6]] [[0, 0], [5, 5]]).flatten ↔ p ∈ ([[0, 0], [5, 6]] : List Point)) ∧
        (∀ i j, i ≠ j → ∀ p : Point,
          p ∈ (assignClusters [[0, 0], [5, 6]] [[0, 0], [5, 5]]).getD i [] →
            p ∉ (assignClusters [[0, 0], [5, 6]] [[0, 0], [5, 5]]).getD j []) ∧
        (∀ p ∈ ([[0, 0], [5, 6]] : List Point), ∃! j,
          j < ([[0, 0], [5, 5]] : List Point).length ∧
            p ∈ (assignClusters [[0, 0], [5, 6]] [[0, 0], [5, 5]]).getD j [])) :=
  ⟨by simp, C4_partition_complete_and_disjoint [[0, 0], [5, 6]] [[0, 0], [5, 5]] (by simp)⟩

/-- C7: on data [[0,0],[0,1],[10,10],[10,11]] with k = 2, initial means
[[0,0],[10,10]], tolerance 1/100 and bound 10, the run converges in
exactly 2 iterations, the final partition is [[0,0],[0,1]] and
[[10,10],[10,11]], and the final centroids are [0,1/2] and [10,21/2]. -/
theorem C7_example_scenario :
    viewClustering [[0, 0], [0, 1], [10, 10], [10, 11]] 2 (some [[0, 0], [10, 10]]) none
        (1/100) 10 (fun _ => 0) noDraw
      = .ok ([[[0, 0], [0, 1]], [[10, 10], [10, 11]]], [[0, 1/2], [10, 21/2]], ⟨2, "best"⟩) ∧
    cluster [[0, 0], [0, 1], [10, 10], [10, 11]] 2 (some [[0, 0], [10, 10]]) none
        (1/100) 10 (fun _ => 0)
      = .ok ([[[0, 0], [0, 1]], [[10, 10], [10, 11]]], [[0, 1/2], [10, 21/2]], 2) := by
  with_unfolding_all decide

/-- C2 as stated is false on the animated entry point: two converging
runs whose iteration counts differ (1 versus 2, as the headless entry
point reports) return identical values from the animated entry point, so
the animated return value does not include the number of iterations
performed. -/
theorem C2_counterexample :
    viewClustering [[0, 0], [0, 1], [10, 10], [10, 11]] 2 (some [[0, 1/2], [10, 21/2]]) none
        (1/100) 10 (fun _ => 0) noDraw
      = viewClustering [[0, 0], [0, 1], [10, 10], [10, 11]] 2 (some [[0, 0], [10, 10]]) none
        (1/100) 10 (fun _ => 0) noDraw ∧
    cluster [[0, 0], [0, 1], [10, 10], [10, 11]] 2 (some [[0, 1/2], [10, 21/2]]) none
        (1/100) 10 (fun _ => 0)
      = .ok ([[[0, 0], [0, 1]], [[10, 10], [10, 11]]], [[0, 1/2], [10, 21/2]], 1) ∧
    cluster [[0, 0], [0, 1], [10, 10], [10, 11]] 2 (some [[0, 0], [10, 10]]) none
        (1/100) 10 (fun _ => 0)
      = .ok ([[[0, 0], [0, 1]], [[10, 10], [10, 11]]], [[0, 1/2], [10, 21/2]], 2) := by
  refine ⟨?_, ?_, ?_⟩ <;> with_unfolding_all decide

/-- C2 (amended): on a converging run the headless entry point returns
the final partition, the final centroids and the iteration count, while
the animated entry point returns the same partition and centroids with
the figure handle in place of the iteration count. -/
theorem C2_success_outputs
    (data0 : List Point) (k : ℕ) (im : Option (List Point)) (nd0 : Option ℕ)
    (tol : ℚ) (mi : ℕ) (rng : ℕ → ℕ)
    (data means : List Point) (nd : ℕ) (cls : Clusters) (cents : List Point) (t : ℕ)
    (hv : validate data0 k im nd0 tol mi rng = .ok (data, means, nd))
    (hnd : nd = 2 ∨ nd = 3)
    (hc : cluster data0 k im nd0 tol mi rng = .ok (cls, cents, t)) :
    viewClustering data0 k im nd0 tol mi rng noDraw
      = .ok (cls, cents, ⟨nd, legendFor data.length⟩) := by
  have hc' : clusterLoop data nd tol noDraw mi 0 means = .ok (cls, cents, t) := by
    unfold cluster at hc
    rw [hv] at hc
    exact hc
  unfold viewClustering
  rw [hv]
  simp only [if_pos hnd, hc']

/-- Witness for C2 (amended) at the example scenario's inputs. -/
theorem C2_success_outputs_witness :
    viewClustering [[0, 0], [0, 1], [10, 10], [10, 11]] 2 (some [[0, 0], [10, 10]]) none
        (1/100) 10 (fun _ => 0) noDraw
      = .ok ([[[0, 0], [0, 1]], [[10, 10], [10, 11]]], [[0, 1/2], [10, 21/2]],
          ⟨2, legendFor ([[0, 0], [0, 1], [10, 10], [10, 11]] : List Point).length⟩) :=
  C2_success_outputs [[0, 0], [0, 1], [10, 10], [10, 11]] 2 (some [[0, 0], [10, 10]]) none
    (1/100) 10 (fun _ => 0) [[0, 0], [0, 1], [10, 10], [10, 11]] [[0, 0], [10, 10]] 2
    [[[0, 0], [0, 1]], [[10, 10], [10, 11]]] [[0, 1/2], [10, 21/2]] 2
    (by with_unfolding_all decide) (Or.inl rfl) (by with_unfolding_all decide)

/-- C3 as stated is false on the code: two runs exhausting different
iteration bounds (1 and 2) raise the very same error value, whose payload
is the fixed message "Iteration count exceeded."; the error does not
carry the iteration bound that was attempted. -/
theorem C3_counterexample :
    viewClustering [[0, 0], [0, 1], [0, 2], [0, 10]] 2 (some [[0, 0], [0, 1]]) none 0 1
        (fun _ => 0) noDraw
      = .error (.maxIteration "Iteration count exceeded.") ∧
    viewClustering [[0, 0], [0, 1], [0, 2], [0, 10]] 2 (some [[0, 0], [0, 1]]) none 0 2
        (fun _ => 0) noDraw
      = .error (.maxIteration "Iteration count exceeded.") ∧
    (1 : ℕ) ≠ 2 := by
  with_unfolding_all decide

/-- Shifting the start of the pure centroid sequence by one step. -/
lemma centSeq_shift (data : List Point) (nd : ℕ) (c0 : List Point) :
    ∀ s, centSeq data nd (stepC data nd c0) s = centSeq data nd c0 (s + 1)
  | 0 => rfl
  | s + 1 => by
    rw [centSeq, centSeq_shift data nd c0 s]
    rfl

/-- With no renderer attached, the loop ends in the max-iteration error
exactly when every one of the `fuel` convergence tests along the pure
centroid sequence fails, and the error's payload is always the fixed
message "Iteration count exceeded.". -/
lemma clusterLoop_maxIteration_iff (data : List Point) (nd : ℕ) (tol : ℚ) :
    ∀ (fuel t : ℕ) (olds : List Point) (m : String),
      clusterLoop data nd tol noDraw fuel t olds = .error (.maxIteration m) ↔
        (m = "Iteration count exceeded." ∧
          ∀ s, s < fuel →
            anyExceeds (centSeq data nd olds (s + 1)) (centSeq data nd olds s) tol = true)
  | 0, t, olds, m => by
    rw [clusterLoop]
    constructor
    · intro hm
      injection hm with h1
      injection h1 with h2
      exact ⟨h2.symm, fun s hs => absurd hs (Nat.not_lt_zero s)⟩
    · rintro ⟨rfl, _⟩
      rfl
  | fuel + 1, t, olds, m => by
    rw [clusterLoop]
    simp only [noDraw]
    by_cases hex : anyExceeds (stepC data nd olds) olds tol = true
    · rw [if_pos hex]
      rw [clusterLoop_maxIteration_iff data nd tol fuel (t + 1) (stepC data nd olds) m]
      constructor
      · rintro ⟨rfl, hall⟩
        refine ⟨rfl, ?_⟩
        intro s hs
        cases s with
        | zero =>
          simpa [centSeq] using hex
        | succ j =>
          have hj := hall j (by omega)
          rwa [centSeq_shift, centSeq_shift] at hj
      · rintro ⟨rfl, hall⟩
        refine ⟨rfl, ?_⟩
        intro s hs
        rw [centSeq_shift, centSeq_shift]
        exact hall (s + 1) (by omega)
    · rw [if_neg hex]
      constructor
      · intro hm
        cases hm
      · rintro ⟨rfl, hall⟩
        exfalso
        have h0 := hall 0 (by omega)
        rw [centSeq, centSeq] at h0
        exact hex (by simpa [centSeq] using h0)

/-- C3 (amended): with a renderer that cannot fail, a validated 2-D or
3-D run raises the max-iteration error exactly when the loop completes
all `max_iterations` iterations with the convergence test failing every
time; the error carries only the fixed message
"Iteration count exceeded.", not the iteration bound. -/
theorem C3_exhaustion_error_iff
    (data0 : List Point) (k : ℕ) (im : Option (List Point)) (nd0 : Option ℕ)
    (tol : ℚ) (mi : ℕ) (rng : ℕ → ℕ)
    (data means : List Point) (nd : ℕ) (m : String)
    (hv : validate data0 k im nd0 tol mi rng = .ok (data, means, nd))
    (hnd : nd = 2 ∨ nd = 3) :
    viewClustering data0 k im nd0 tol mi rng noDraw = .error (.maxIteration m) ↔
      (m = "Iteration count exceeded." ∧
        ∀ s, s < mi →
          anyExceeds (centSeq data nd means (s + 1)) (centSeq data nd means s) tol = true) := by
  unfold viewClustering
  rw [hv]
  simp only [if_pos hnd]
  rw [← clusterLoop_maxIteration_iff data nd tol mi 0 means m]
  cases hl : clusterLoop data nd tol noDraw mi 0 means with
  | error e =>
    simp
  | ok r =>
    constructor
    · intro hr
      cases hr
    · intro hr
      cases hr

/-- Witness for C3 (amended): the four collinear points of the
counterexample with bound 1 exhaust the loop with the fixed message. -/
theorem C3_exhaustion_error_iff_witness :
    viewClustering [[0, 0], [0, 1], [0, 2], [0, 10]] 2 (some [[0, 0], [0, 1]]) none 0 1
        (fun _ => 0) noDraw
      = .error (.maxIteration "Iteration count exceeded.") ↔
      ("Iteration count exceeded." = "Iteration count exceeded." ∧
        ∀ s, s < 1 →
          anyExceeds
            (centSeq [[0, 0], [0, 1], [0, 2], [0, 10]] 2 [[0, 0], [0, 1]] (s + 1))
            (centSeq [[0, 0], [0, 1], [0, 2], [0, 10]] 2 [[0, 0], [0, 1]] s) 0 = true) :=
  C3_exhaustion_error_iff [[0, 0], [0, 1], [0, 2], [0, 10]] 2 (some [[0, 0], [0, 1]]) none 0 1
    (fun _ => 0) [[0, 0], [0, 1], [0, 2], [0, 10]] [[0, 0], [0, 1]] 2 "Iteration count exceeded."
    (by with_unfolding_all decide) (Or.inl rfl)

/-- C5 as stated is false on the code: the same validated input that
succeeds under a renderer that never fails aborts with the render error
when the per-iteration drawing call fails, so a rendering exception does
propagate out of the iteration loop and does change the result. -/
theorem C5_counterexample :
    viewClustering [[0, 0], [0, 1], [10, 10], [10, 11]] 2 (some [[0, 0], [10, 10]]) none
        (1/100) 10 (fun _ => 0) (fun _ _ _ => some "render failure")
      = .error (.render "render failure") ∧
    viewClustering [[0, 0], [0, 1], [10, 10], [10, 11]] 2 (some [[0, 0], [10, 10]]) none
        (1/100) 10 (fun _ => 0) noDraw
      = .ok ([[[0, 0], [0, 1]], [[10, 10], [10, 11]]], [[0, 1/2], [10, 21/2]], ⟨2, "best"⟩) := by
  refine ⟨?_, ?_⟩ <;> with_unfolding_all decide

/-- C5 (amended): an exception raised by the per-iteration rendering call
propagates out of the iteration loop and aborts clustering — the source
calls `_draw` with no handler, so any validated 2-D or 3-D run whose
renderer fails returns the render error instead of a clustering result. -/
theorem C5_render_failure_aborts
    (data0 : List Point) (k : ℕ) (im : Option (List Point)) (nd0 : Option ℕ)
    (tol : ℚ) (mi : ℕ) (rng : ℕ → ℕ)
    (data means : List Point) (nd : ℕ) (e : String)
    (hv : validate data0 k im nd0 tol mi rng = .ok (data, means, nd))
    (hnd : nd = 2 ∨ nd = 3) (hmi : 0 < mi) :
    viewClustering data0 k im nd0 tol mi rng (fun _ _ _ => some e) = .error (.render e) := by
  unfold viewClustering
  rw [hv]
  simp only [if_pos hnd]
  obtain ⟨mi', rfl⟩ : ∃ mi', mi = mi' + 1 := ⟨mi - 1, by omega⟩
  rw [clusterLoop]

/-- Witness for C5 (amended) at the example scenario's inputs. -/
theorem C5_render_failure_aborts_witness :
    viewClustering [[0, 0], [0, 1], [10, 10], [10, 11]] 2 (some [[0, 0], [10, 10]]) none
        (1/100) 10 (fun _ => 0) (fun _ _ _ => some "boom") = .error (.render "boom") :=
  C5_render_failure_aborts [[0, 0], [0, 1], [10, 10], [10, 11]] 2 (some [[0, 0], [10, 10]]) none
    (1/100) 10 (fun _ => 0) [[0, 0], [0, 1], [10, 10], [10, 11]] [[0, 0], [10, 10]] 2 "boom"
    (by with_unfolding_all decide) (Or.inl rfl) (by omega)

/-- On a validated 2-D or 3-D run whose loop succeeds, the animated entry
point returns the loop's partition and centroids with the figure handle. -/
lemma viewClustering_eq_of_ok
    (data0 : List Point) (k : ℕ) (im : Option (List Point)) (nd0 : Option ℕ)
    (tol : ℚ) (mi : ℕ) (rng : ℕ → ℕ)
    (draw : ℕ → Clusters → List Point → Option String)
    (data means : List Point) (nd : ℕ) (cls : Clusters) (cents : List Point) (t : ℕ)
    (hv : validate data0 k im nd0 tol mi rng = .ok (data, means, nd))
    (hnd : nd = 2 ∨ nd = 3)
    (hl : clusterLoop data nd tol draw mi 0 means = .ok (cls, cents, t)) :
    viewClustering data0 k im nd0 tol mi rng draw
      = .ok (cls, cents, ⟨nd, legendFor data.length⟩) := by
  unfold viewClustering
  rw [hv]
  simp only [if_pos hnd, hl]

/-- Inverse reading of a successful animated run: validation succeeded
with a 2-D or 3-D width, the loop succeeded, and the result is the loop's
partition and centroids paired with the figure handle. -/
lemma viewClustering_ok_inv
    (data0 : List Point) (k : ℕ) (im : Option (List Point)) (nd0 : Option ℕ)
    (tol : ℚ) (mi : ℕ) (rng : ℕ → ℕ)
    (draw : ℕ → Clusters → List Point → Option String)
    (data means : List Point) (nd : ℕ) (r : Clusters × List Point × Fig)
    (hv : validate data0 k im nd0 tol mi rng = .ok (data, means, nd))
    (hr : viewClustering data0 k im nd0 tol mi rng draw = .ok r) :
    (nd = 2 ∨ nd = 3) ∧ ∃ cls cents t,
      clusterLoop data nd tol draw mi 0 means = .ok (cls, cents, t) ∧
        r = (cls, cents, ⟨nd, legendFor data.length⟩) := by
  unfold viewClustering at hr
  rw [hv] at hr
  by_cases hnd : nd = 2 ∨ nd = 3
  · simp only [if_pos hnd] at hr
    refine ⟨hnd, ?_⟩
    cases hl : clusterLoop data nd tol draw mi 0 means with
    | error e =>
      rw [hl] at hr
      cases hr
    | ok rr =>
      obtain ⟨cls, cents, t⟩ := rr
      rw [hl] at hr
      have hr' : Except.ok (α := Clusters × List Point × Fig)
          (cls, cents, (⟨nd, legendFor data.length⟩ : Fig)) = .ok r := hr
      exact ⟨cls, cents, t, rfl, (Except.ok.inj hr').symm⟩
  · simp only [if_neg hnd] at hr
    cases hr

/-- C6: a validated input whose dimensionality is neither 2 nor 3 makes
the animated entry point fail with the unsupported-dimension error of the
animated path — distinct from every validator error — and no clustering
iteration runs: the outcome does not depend on the renderer at all. -/
theorem C6_unsupported_dimension
    (data0 : List Point) (k : ℕ) (im : Option (List Point)) (nd0 : Option ℕ)
    (tol : ℚ) (mi : ℕ) (rng : ℕ → ℕ)
    (draw : ℕ → Clusters → List Point → Option String)
    (data means : List Point) (nd : ℕ)
    (hv : validate data0 k im nd0 tol mi rng = .ok (data, means, nd))
    (h2 : nd ≠ 2) (h3 : nd ≠ 3) :
    viewClustering data0 k im nd0 tol mi rng draw
      = .error (.unsupportedDimension
          "Only 2-D or 3-D may be animated. Use the `cluster` function for other dimensioned data.") ∧
    (∀ m, isValidationError (.unsupportedDimension m) = false) ∧
    ∀ draw', viewClustering data0 k im nd0 tol mi rng draw'
      = viewClustering data0 k im nd0 tol mi rng draw := by
  have key : ∀ d, viewClustering data0 k im nd0 tol mi rng d
      = .error (.unsupportedDimension
          "Only 2-D or 3-D may be animated. Use the `cluster` function for other dimensioned data.") := by
    intro d
    have hnd : ¬(nd = 2 ∨ nd = 3) := by
      rintro (h | h)
      · exact h2 h
      · exact h3 h
    unfold viewClustering
    rw [hv]
    simp only [if_neg hnd]
  exact ⟨key draw, fun m => rfl, fun d' => (key d').trans (key draw).symm⟩

/-- Witness for C6: validated 4-D data reaches the unsupported-dimension
error whatever the renderer. -/
theorem C6_unsupported_dimension_witness :
    viewClustering [[0, 0, 0, 0]] 1 (some [[0, 0, 0, 0]]) none 0 1 (fun _ => 0) noDraw
      = .error (.unsupportedDimension
          "Only 2-D or 3-D may be animated. Use the `cluster` function for other dimensioned data.") ∧
    (∀ m, isValidationError (.unsupportedDimension m) = false) ∧
    ∀ draw', viewClustering [[0, 0, 0, 0]] 1 (some [[0, 0, 0, 0]]) none 0 1 (fun _ => 0) draw'
      = viewClustering [[0, 0, 0, 0]] 1 (some [[0, 0, 0, 0]]) none 0 1 (fun _ => 0) noDraw :=
  C6_unsupported_dimension [[0, 0, 0, 0]] 1 (some [[0, 0, 0, 0]]) none 0 1 (fun _ => 0) noDraw
    [[0, 0, 0, 0]] [[0, 0, 0, 0]] 4 (by with_unfolding_all decide)
    (by omega) (by omega)

/-- Every error the Validator can produce is one of its five validation
errors; in particular it is never the animated path's
unsupported-dimension error nor the loop's max-iteration error. -/
lemma validate_error_validation
    (data0 : List Point) (k : ℕ) (im : Option (List Point)) (nd0 : Option ℕ)
    (tol : ℚ) (mi : ℕ) (rng : ℕ → ℕ) (e : KErr)
    (he : validate data0 k im nd0 tol mi rng = .error e) :
    isValidationError e = true := by
  unfold validate at he
  repeat' split at he
  all_goals first
    | (cases he; rfl)
    | (cases he)

/-- C10: validation errors take precedence — an input the Validator
rejects makes the animated entry point return exactly the Validator's
error, that error is one of the validation kinds (never the
unsupported-dimension error, which therefore only arises after
validation passes), and no clustering iteration runs: the outcome does
not depend on the renderer at all. -/
theorem C10_validation_error_precedence
    (data0 : List Point) (k : ℕ) (im : Option (List Point)) (nd0 : Option ℕ)
    (tol : ℚ) (mi : ℕ) (rng : ℕ → ℕ)
    (draw : ℕ → Clusters → List Point → Option String) (e : KErr)
    (he : validate data0 k im nd0 tol mi rng = .error e) :
    viewClustering data0 k im nd0 tol mi rng draw = .error e ∧
      isValidationError e = true ∧
      ∀ draw', viewClustering data0 k im nd0 tol mi rng draw'
        = viewClustering data0 k im nd0 tol mi rng draw := by
  have key : ∀ d, viewClustering data0 k im nd0 tol mi rng d = .error e := by
    intro d
    unfold viewClustering
    rw [he]
  exact ⟨key draw, validate_error_validation data0 k im nd0 tol mi rng e he,
    fun d' => (key d').trans (key draw).symm⟩

/-- Witness for C10: a rejected cluster count (k = 0) surfaces the
Validator's error unchanged through the animated entry point. -/
theorem C10_validation_error_precedence_witness :
    viewClustering [[0, 0]] 0 none none 0 1 (fun _ => 0) noDraw
        = .error (.invalidClusterCount
            "k must be a positive integer no larger than the number of points") ∧
      isValidationError (.invalidClusterCount
        "k must be a positive integer no larger than the number of points") = true ∧
      ∀ draw', viewClustering [[0, 0]] 0 none none 0 1 (fun _ => 0) draw'
        = viewClustering [[0, 0]] 0 none none 0 1 (fun _ => 0) noDraw :=
  C10_validation_error_precedence [[0, 0]] 0 none none 0 1 (fun _ => 0) noDraw
    (.invalidClusterCount "k must be a positive integer no larger than the number of points")
    (by with_unfolding_all decide)

/-- C9: the default legend anchor is a function of the dataset size
alone — a successful animated run's figure carries the anchor
`legendFor` of the validated dataset's size, `legendFor` yields the fixed
corner "upper right" exactly above 100000 points, and the automatic
"best" exactly at or below 100000 points. -/
theorem C9_legend_threshold
    (n : ℕ)
    (data0 : List Point) (k : ℕ) (im : Option (List Point)) (nd0 : Option ℕ)
    (tol : ℚ) (mi : ℕ) (rng : ℕ → ℕ)
    (draw : ℕ → Clusters → List Point → Option String)
    (data means : List Point) (nd : ℕ) (r : Clusters × List Point × Fig)
    (hv : validate data0 k im nd0 tol mi rng = .ok (data, means, nd))
    (hr : viewClustering data0 k im nd0 tol mi rng draw = .ok r) :
    r.2.2 = ⟨nd, legendFor data.length⟩ ∧
      (legendFor n = "upper right" ↔ 100000 < n) ∧
      (legendFor n = "best" ↔ n ≤ 100000) := by
  refine ⟨?_, ?_, ?_⟩
  · obtain ⟨-, cls, cents, t, -, rfl⟩ :=
      viewClustering_ok_inv data0 k im nd0 tol mi rng draw data means nd r hv hr
    rfl
  · constructor
    · intro hl
      by_contra hn
      rw [legendFor, if_neg hn] at hl
      exact absurd hl (by decide)
    · intro hn
      rw [legendFor, if_pos hn]
  · constructor
    · intro hl
      by_contra hn
      rw [legendFor, if_pos (by omega : 100000 < n)] at hl
      exact absurd hl (by decide)
    · intro hn
      rw [legendFor, if_neg (by omega : ¬ 100000 < n)]

/-- Witness for C9 at the example scenario: four points use "best". -/
theorem C9_legend_threshold_witness :
    (([[[0, 0], [0, 1]], [[10, 10], [10, 11]]], [[0, 1/2], [10, 21/2]],
        (⟨2, "best"⟩ : Fig)) : Clusters × List Point × Fig).2.2
        = ⟨2, legendFor ([[0, 0], [0, 1], [10, 10], [10, 11]] : List Point).length⟩ ∧
      (legendFor 200000 = "upper right" ↔ 100000 < 200000) ∧
      (legendFor 200000 = "best" ↔ 200000 ≤ 100000) :=
  C9_legend_threshold 200000 [[0, 0], [0, 1], [10, 10], [10, 11]] 2 (some [[0, 0], [10, 10]])
    none (1/100) 10 (fun _ => 0) noDraw [[0, 0], [0, 1], [10, 10], [10, 11]] [[0, 0], [10, 10]] 2
    ([[[0, 0], [0, 1]], [[10, 10], [10, 11]]], [[0, 1/2], [10, 21/2]], ⟨2, "best"⟩)
    (by with_unfolding_all decide) (by with_unfolding_all decide)

/-- A successful loop outcome does not depend on the renderer: whatever
renderer let the loop succeed, the renderer-free loop reaches the very
same partition, centroids and count. -/
lemma clusterLoop_ok_draw_irrel (data : List Point) (nd : ℕ) (tol : ℚ) :
    ∀ (fuel t : ℕ) (olds : List Point)
      (draw : ℕ → Clusters → List Point → Option String)
      (r : Clusters × List Point × ℕ),
      clusterLoop data nd tol draw fuel t olds = .ok r →
      clusterLoop data nd tol noDraw fuel t olds = .ok r
  | 0, t, olds, draw, r => by
    intro h
    rw [clusterLoop] at h
    cases h
  | fuel + 1, t, olds, draw, r => by
    intro h
    rw [clusterLoop] at h ⊢
    simp only [noDraw]
    cases hd : draw t (assignClusters data olds) (stepC data nd olds) with
    | some e =>
      rw [hd] at h
      cases h
    | none =>
      rw [hd] at h
      by_cases hex : anyExceeds (stepC data nd olds) olds tol = true
      · rw [if_pos hex] at h ⊢
        exact clusterLoop_ok_draw_irrel data nd tol fuel (t + 1) (stepC data nd olds) draw r h
      · rw [if_neg hex] at h ⊢
        exact h

/-- If the renderer-free loop succeeds from the `s`-th point of the pure
centroid sequence, so does the loop under the checking renderer: every
rendering call along the way received exactly the pure per-iteration
partition and centroids. -/
lemma clusterLoop_ok_chkDraw (data : List Point) (nd : ℕ) (tol : ℚ) (c0 : List Point) :
    ∀ (fuel s : ℕ) (r : Clusters × List Point × ℕ),
      clusterLoop data nd tol noDraw fuel s (centSeq data nd c0 s) = .ok r →
      clusterLoop data nd tol (chkDraw data nd c0) fuel s (centSeq data nd c0 s) = .ok r
  | 0, s, r => by
    intro h
    rw [clusterLoop] at h
    cases h
  | fuel + 1, s, r => by
    intro h
    rw [clusterLoop] at h ⊢
    simp only [noDraw] at h
    have hchk : chkDraw data nd c0 s (assignClusters data (centSeq data nd c0 s))
        (stepC data nd (centSeq data nd c0 s)) = none := by
      unfold chkDraw
      rw [if_pos ⟨rfl, rfl⟩]
    rw [hchk]
    by_cases hex : anyExceeds (stepC data nd (centSeq data nd c0 s))
        (centSeq data nd c0 s) tol = true
    · rw [if_pos hex] at h ⊢
      have h' : clusterLoop data nd tol noDraw fuel (s + 1) (centSeq data nd c0 (s + 1))
          = .ok r := h
      exact clusterLoop_ok_chkDraw data nd tol c0 fuel (s + 1) r h'
    · rw [if_neg hex] at h ⊢
      exact h

/-- C8: with supplied initial centroids, clustering is deterministic —
two animated runs on identical (data, k, initial means, tolerance, bound)
that both succeed return equal results even under different renderers,
and the partition and centroids handed to the renderer at every iteration
are the pure per-iteration values determined by the data and the current
centroids alone (the run also succeeds under the checking renderer). -/
theorem C8_deterministic_given_initial_means
    (data0 : List Point) (k : ℕ) (im : Option (List Point)) (nd0 : Option ℕ)
    (tol : ℚ) (mi : ℕ) (rng : ℕ → ℕ)
    (draw1 draw2 : ℕ → Clusters → List Point → Option String)
    (data means : List Point) (nd : ℕ) (r1 r2 : Clusters × List Point × Fig)
    (hv : validate data0 k im nd0 tol mi rng = .ok (data, means, nd))
    (h1 : viewClustering data0 k im nd0 tol mi rng draw1 = .ok r1)
    (h2 : viewClustering data0 k im nd0 tol mi rng draw2 = .ok r2) :
    r1 = r2 ∧ ∃ t, clusterLoop data nd tol (chkDraw data nd means) mi 0 means
      = .ok (r1.1, r1.2.1, t) := by
  obtain ⟨hnd, cls1, cents1, t1, hl1, hr1⟩ :=
    viewClustering_ok_inv data0 k im nd0 tol mi rng draw1 data means nd r1 hv h1
  obtain ⟨-, cls2, cents2, t2, hl2, hr2⟩ :=
    viewClustering_ok_inv data0 k im nd0 tol mi rng draw2 data means nd r2 hv h2
  have g1 := clusterLoop_ok_draw_irrel data nd tol mi 0 means draw1 _ hl1
  have g2 := clusterLoop_ok_draw_irrel data nd tol mi 0 means draw2 _ hl2
  have heq : (cls1, cents1, t1) = (cls2, cents2, t2) := Except.ok.inj (g1.symm.trans g2)
  have h3 : cls1 = cls2 ∧ cents1 = cents2 ∧ t1 = t2 := by simpa using heq
  subst hr1
  subst hr2
  refine ⟨?_, t1, ?_⟩
  · rw [h3.1, h3.2.1]
  · have g1' : clusterLoop data nd tol noDraw mi 0 (centSeq data nd means 0)
        = .ok (cls1, cents1, t1) := g1
    exact clusterLoop_ok_chkDraw data nd tol means mi 0 _ g1'

/-- Witness for C8: the example scenario run twice, under two renderers. -/
theorem C8_deterministic_given_initial_means_witness :
    (([[[0, 0], [0, 1]], [[10, 10], [10, 11]]], [[0, 1/2], [10, 21/2]],
        (⟨2, "best"⟩ : Fig)) : Clusters × List Point × Fig)
      = ([[[0, 0], [0, 1]], [[10, 10], [10, 11]]], [[0, 1/2], [10, 21/2]], (⟨2, "best"⟩ : Fig)) ∧
    ∃ t, clusterLoop [[0, 0], [0, 1], [10, 10], [10, 11]] 2 (1/100)
        (chkDraw [[0, 0], [0, 1], [10, 10], [10, 11]] 2 [[0, 0], [10, 10]]) 10 0 [[0, 0], [10, 10]]
      = .ok ((([[[0, 0], [0, 1]], [[10, 10], [10, 11]]], [[0, 1/2], [10, 21/2]],
          (⟨2, "best"⟩ : Fig)) : Clusters × List Point × Fig).1,
        (([[[0, 0], [0, 1]], [[10, 10], [10, 11]]], [[0, 1/2], [10, 21/2]],
          (⟨2, "best"⟩ : Fig)) : Clusters × List Point × Fig).2.1, t) :=
  C8_deterministic_given_initial_means [[0, 0], [0, 1], [10, 10], [10, 11]] 2
    (some [[0, 0], [10, 10]]) none (1/100) 10 (fun _ => 0) noDraw (fun _ _ _ => none)
    [[0, 0], [0, 1], [10, 10], [10, 11]] [[0, 0], [10, 10]] 2
    ([[[0, 0], [0, 1]], [[10, 10], [10, 11]]], [[0, 1/2], [10, 21/2]], ⟨2, "best"⟩)
    ([[[0, 0], [0, 1]], [[10, 10], [10, 11]]], [[0, 1/2], [10, 21/2]], ⟨2, "best"⟩)
    (by with_unfolding_all decide) (by with_unfolding_all decide) (by with_unfolding_all decide)

end KMeans
